import Mathlib

/-!
Shallow embedding of the YouTube metadata-acquisition scripts
(`main.py`, `youtube_batch_combo.py`, `helpers/parse_metadata.py`).

Modeling conventions:
* Python strings are Lean `String` (a sequence of characters); Python
  slicing `s[:n]` is `pyTruncate s n`.
* A Python dictionary with a fixed key set is a structure whose fields are
  `Option`-valued where the source may omit the key (`None`/missing key is
  `none`).
* A raised Python exception is `Except.error`; a function body that can
  raise has an `Except` return type.
* The external collaborators (the Google API client, pytube, the file
  system, the yt-dlp subprocess) are black boxes per the spec; their
  observable behaviour for one run is passed in as explicit data
  (an `Except` result per call, a storage state, a list of parsed result
  files).
-/

/-- Python truthiness of an optional string: `None` and `""` are falsy,
any other string is truthy. -/
def truthyOpt : Option String → Bool
  | none => false
  | some s => !(s == "")

/-- Scan for an occurrence of `pat` anywhere in the haystack. -/
def containsSubChars (pat : List Char) : List Char → Bool
  | [] => pat.isEmpty
  | c :: rest => pat.isPrefixOf (c :: rest) || containsSubChars pat rest

/-- Python substring test `pat in url`. -/
def containsSub (url pat : String) : Bool :=
  containsSubChars pat.data url.data

/-- Python slicing `s[:n]`: the first `n` characters of `s`. -/
def pyTruncate (s : String) (n : Nat) : String :=
  ⟨s.data.take n⟩

/-- Possible Python runtime errors raised by the embedded code or its
collaborators. -/
inductive PyErr
  | ioError
  | jsonError
  | keyError
  | typeError
  | httpError
  | pytubeRaise
deriving DecidableEq

namespace Main

/-- `main.py`, `is_single_video`: single-item markers are tested first,
then the multi markers, then the handle marker; default is multi. -/
def is_single_video (url : String) : Bool :=
  if containsSub url "watch?v=" || containsSub url "youtu.be/" then true
  else if containsSub url "/channel/" || containsSub url "list=" ||
      containsSub url "/playlist" then false
  else if containsSub url "/@" then false
  else false

end Main

namespace Combo

/-- `youtube_batch_combo.py`, `is_single_video`: the collection regex
`(list=|/playlist|/channel/)` is tested first; the single-item markers
only afterwards. -/
def is_single_video (url : String) : Bool :=
  if containsSub url "list=" || containsSub url "/playlist" ||
      containsSub url "/channel/" then false
  else if containsSub url "watch?v=" || containsSub url "youtu.be/" then true
  else false

end Combo

/-- A URL contains a single-item marker pattern (a watch-link or
short-link form). -/
def hasSingleMarker (url : String) : Bool :=
  containsSub url "watch?v=" || containsSub url "youtu.be/"

/-- A URL contains a collection marker pattern (collection-id path
segment, list query parameter, playlist path segment, or handle alias). -/
def hasCollectionMarker (url : String) : Bool :=
  containsSub url "/channel/" || containsSub url "list=" ||
    containsSub url "/playlist" || containsSub url "/@"

/-- The ETag cache `{ channelId: eTag }`: a Python dict modeled as an
association list in insertion order. -/
abbrev EtagCache := List (String × String)

/-- Python `d.get(k)`: the value bound to `k`, or `None`. -/
def cacheGet : EtagCache → String → Option String
  | [], _ => none
  | kv :: rest, k => if kv.fst == k then some kv.snd else cacheGet rest k

/-- Python `d[k] = v`: overwrite the binding in place if present, else
append a new one. -/
def cacheSet : EtagCache → String → String → EtagCache
  | [], k, v => [(k, v)]
  | kv :: rest, k, v =>
    if kv.fst == k then (k, v) :: rest else kv :: cacheSet rest k v

/-- The observable state of the cache file on disk when
`load_etags_cache` runs. -/
inductive StorageState
  | missing
  | unreadable
  | corruptContent
  | valid (m : EtagCache)

/-- The body of the `try` block of `load_etags_cache`:
`open(cache_path)` followed by `json.load(f)`; each step can raise. -/
def openAndParseCache : StorageState → Except PyErr EtagCache
  | .missing => .error .ioError
  | .unreadable => .error .ioError
  | .corruptContent => .error .jsonError
  | .valid m => .ok m

/-- `main.py`, `load_etags_cache`: the bare `except:` catches every error
and yields `{}`; the total return type reflects that the function cannot
raise. -/
def load_etags_cache (s : StorageState) : EtagCache :=
  match openAndParseCache s with
  | .ok m => m
  | .error _ => []

/-- File-system operations performed by `save_etags_cache`, recorded as a
trace. -/
inductive FsOp
  | mkdirParents (path : String)
  | openTruncate (path : String)
  | writeContent (path : String) (content : String)
  | rename (src dst : String)
deriving DecidableEq

/-- `Path(p).parent`, approximated as the text before the last slash. -/
def parentDir (p : String) : String :=
  ⟨((p.data.reverse.dropWhile (fun c => c ≠ '/')).drop 1).reverse⟩

/-- Abstract stand-in for `json.dump(etags, f, indent=2)`; the exact
format is irrelevant to every claim, only that the serialized cache is
written. -/
def jsonDumpCache (m : EtagCache) : String :=
  String.join (m.map (fun kv => kv.fst ++ ":" ++ kv.snd ++ ";"))

/-- `main.py`, `save_etags_cache`, as its file-system trace: make the
parent directory, open the cache path itself in write (truncate) mode,
and write the serialized mapping into it. -/
def save_etags_cache (etags : EtagCache) (cache_path : String) : List FsOp :=
  [FsOp.mkdirParents (parentDir cache_path),
   FsOp.openTruncate cache_path,
   FsOp.writeContent cache_path (jsonDumpCache etags)]

/-- An operation that opens the target for truncation or writes to it
directly (not via rename). -/
def touchesTargetDirectly (target : String) : FsOp → Bool
  | FsOp.openTruncate p => p == target
  | FsOp.writeContent p _ => p == target
  | _ => false

/-- Modelled from the spec: "implementation must write to a temp location
and rename, or equivalent" — an atomic write discipline never opens or
writes the final target path directly; the target may only appear as the
destination of a rename. -/
def atomicWriteDiscipline (target : String) (ops : List FsOp) : Prop :=
  ∀ op ∈ ops, touchesTargetDirectly target op = false

/-- The `id` object of one item of a `search().list()` response.
`videoId` is `none` when the key is absent (the id is of channel or
playlist kind); reading the key then raises `KeyError`. -/
structure ApiItemId where
  kind : String
  videoId : Option String
deriving DecidableEq

/-- The `snippet` object of one response item; every field is read with
`.get`, so absence is `none`, not an error. -/
structure ApiSnippet where
  publishedAt : Option String
  channelId : Option String
  title : Option String
  description : Option String
deriving DecidableEq

/-- One element of the response's `items` list. -/
structure ApiItem where
  id : ApiItemId
  snippet : ApiSnippet
deriving DecidableEq

/-- The body of a successful `search().list().execute()` response:
`resp.get("etag")` and `resp.get("items", [])`. -/
structure ApiResp where
  etag : Option String
  items : List ApiItem
deriving DecidableEq

/-- One entry of `videos_info` inside `fetch_channel_videos_youtube_api`. -/
structure VideoInfo where
  videoId : String
  publishedAt : Option String
  channelId : Option String
  title : Option String
  description : Option String
deriving DecidableEq

/-- The dictionary returned by `fetch_channel_videos_youtube_api`.  The
`build is None` early return omits the two etag keys; that is modeled as
`none`, which `main` never reads on that path. -/
structure FetchResult where
  channelId : String
  etag_used : Option String
  etag_new : Option String
  videos : List VideoInfo
  unchanged : Bool
deriving DecidableEq

/-- The `for it in items` loop of `fetch_channel_videos_youtube_api`:
keep items whose id kind is `youtube#video`; reading a missing `videoId`
on such an item raises `KeyError`, aborting the whole call. -/
def parseItems : List ApiItem → Except PyErr (List VideoInfo)
  | [] => .ok []
  | it :: rest =>
    if it.id.kind == "youtube#video" then
      match it.id.videoId with
      | none => .error .keyError
      | some vid =>
        match parseItems rest with
        | .error e => .error e
        | .ok vs =>
          .ok ({ videoId := vid,
                 publishedAt := it.snippet.publishedAt,
                 channelId := it.snippet.channelId,
                 title := it.snippet.title,
                 description := it.snippet.description } :: vs)
    else parseItems rest

/-- The record `parseItems` would build for one item, or `none` when the
item is dropped (id kind is not `youtube#video`) or has no `videoId`. -/
def toVideoInfo (it : ApiItem) : Option VideoInfo :=
  if it.id.kind == "youtube#video" then
    it.id.videoId.map (fun vid =>
      { videoId := vid,
        publishedAt := it.snippet.publishedAt,
        channelId := it.snippet.channelId,
        title := it.snippet.title,
        description := it.snippet.description })
  else none

/-- `main.py`, `fetch_channel_videos_youtube_api`.  `buildAvailable` is
whether `googleapiclient` imported; `execResult` is the outcome of the
single `search().list().execute()` network call (a black box), which may
raise.  The cache dict is threaded explicitly: the returned cache is the
mutated `etags_cache`. -/
def fetch_channel_videos_youtube_api (buildAvailable : Bool)
    (execResult : Except PyErr ApiResp)
    (channel_id : String) (etags_cache : EtagCache) :
    Except PyErr (FetchResult × EtagCache) :=
  match buildAvailable with
  | false =>
    .ok ({ channelId := channel_id, etag_used := none, etag_new := none,
           videos := [], unchanged := false }, etags_cache)
  | true =>
    match execResult with
    | .error e => .error e
    | .ok resp =>
      let new_etag := resp.etag
      let old_etag := cacheGet etags_cache channel_id
      if truthyOpt new_etag && truthyOpt old_etag && new_etag == old_etag then
        .ok ({ channelId := channel_id, etag_used := old_etag, etag_new := none,
               videos := [], unchanged := true }, etags_cache)
      else
        match parseItems resp.items with
        | .error e => .error e
        | .ok videos_info =>
          let cache2 :=
            if truthyOpt new_etag then
              cacheSet etags_cache channel_id (new_etag.getD "")
            else etags_cache
          .ok ({ channelId := channel_id, etag_used := old_etag,
                 etag_new := new_etag, videos := videos_info,
                 unchanged := false }, cache2)

/-- The attribute values a constructed `YouTube(url)` object yields.
`publish_date` carries the already-`str`-ed date (`none` when the date is
falsy); `description` may be `None`. -/
structure PytubeProps where
  video_id : String
  title : String
  channel_url : String
  channel_id : Option String
  publish_date : Option String
  views : Int
  description : Option String
deriving DecidableEq

/-- The dictionary built by `fetch_single_video_pytube` on success. -/
structure SingleData where
  video_id : String
  title : String
  channel_url : String
  channel_id : Option String
  publish_date : Option String
  views : Int
  description : String
deriving DecidableEq

/-- `main.py`, `fetch_single_video_pytube`.  `ytResult` is the behaviour
of the pytube library for this URL (a black box): either a raised error
or the object's attributes.  An unavailable library returns the empty
dict (`none`); `yt.description[:200]` raises `TypeError` when the
description is `None`. -/
def fetch_single_video_pytube (avail : Bool)
    (ytResult : Except PyErr PytubeProps) :
    Except PyErr (Option SingleData) :=
  match avail with
  | false => .ok none
  | true =>
    match ytResult with
    | .error e => .error e
    | .ok yt =>
      match yt.description with
      | none => .error .typeError
      | some d =>
        .ok (some { video_id := yt.video_id, title := yt.title,
                    channel_url := yt.channel_url,
                    channel_id := yt.channel_id,
                    publish_date := yt.publish_date, views := yt.views,
                    description := pyTruncate d 200 })

/-- Search for `/channel/([^\x2f]+)`: at each position, the literal must
match and be followed by at least one non-slash character (the captured
group, taken greedily); otherwise the scan moves one character right,
exactly as `re.search` does. -/
def extractChannelIdAux : List Char → Option String
  | [] => none
  | c :: rest =>
    if "/channel/".data.isPrefixOf (c :: rest) then
      let seg := ((c :: rest).drop 9).takeWhile (fun ch => ch ≠ '/')
      if seg.isEmpty then extractChannelIdAux rest else some ⟨seg⟩
    else extractChannelIdAux rest

/-- The `re.search(r"/channel/([^/]+)", url)` step of `main`. -/
def extractChannelId (url : String) : Option String :=
  extractChannelIdAux url.data

/-- Events the orchestrator emits that the claims observe: one per
`run_yt_dlp_metadata_only` invocation and one per `save_etags_cache`
call. -/
inductive Event
  | scrapeInvoked (url : String)
  | saveCache
deriving DecidableEq

/-- One entry of `all_metadata` / `combined_data`: the union of the key
sets of the three result dict shapes (pytube, Data API, swept
`.info.json`).  A key a given shape never sets is `none`. -/
structure OutRec where
  videoId : Option String
  title : Option String
  description : Option String
  channelId : Option String
  channel_url : Option String
  channel_id : Option String
  publish_date : Option String
  publishedAt : Option String
  views : Option Int
  view_count : Option Int
  like_count : Option Int
  duration : Option Int
  webpage_url : Option String
  source : String
  original_url : Option String
deriving DecidableEq

/-- The pytube dict after `main` adds `source` and `original_url`. -/
def pytubeRec (d : SingleData) (url : String) : OutRec :=
  { videoId := some d.video_id, title := some d.title,
    description := some d.description, channelId := none,
    channel_url := some d.channel_url, channel_id := d.channel_id,
    publish_date := d.publish_date, publishedAt := none,
    views := some d.views, view_count := none, like_count := none,
    duration := none, webpage_url := none, source := "pytube",
    original_url := some url }

/-- The item dict `main` builds from one Data-API video (note: the
description is copied verbatim, untruncated). -/
def apiRec (channel_id : String) (v : VideoInfo) : OutRec :=
  { videoId := some v.videoId, title := v.title,
    description := v.description, channelId := some channel_id,
    channel_url := none, channel_id := none, publish_date := none,
    publishedAt := none, views := none, view_count := none,
    like_count := none, duration := none, webpage_url := none,
    source := "YouTubeDataAPI", original_url := none }

/-- The fields `main` reads out of one parsed `.info.json` file. -/
structure InfoJson where
  id : Option String
  title : Option String
  channel_id : Option String
  view_count : Option Int
  like_count : Option Int
  duration : Option Int
  webpage_url : Option String
  description : Option String
deriving DecidableEq

/-- The dict the `--dump-json` sweep appends for one readable
`.info.json` file. -/
def sweepRec (m : InfoJson) : OutRec :=
  { videoId := m.id, title := m.title,
    description := some (pyTruncate (m.description.getD "") 200),
    channelId := none, channel_url := none, channel_id := m.channel_id,
    publish_date := none, publishedAt := none, views := none,
    view_count := m.view_count, like_count := m.like_count,
    duration := m.duration, webpage_url := m.webpage_url,
    source := "yt-dlp", original_url := none }

/-- The external world of one `main` run: availability of the optional
libraries, the API key in the environment, the behaviour of each
black-box collaborator, the cache file state at start, and the parsed
`.info.json` files found in the output directory at dump time (`none`
marks a file whose open/parse raises and is skipped). -/
structure Env where
  api_key : Option String
  buildAvailable : Bool
  pytubeAvailable : Bool
  pytube : String → Except PyErr PytubeProps
  apiExec : String → Except PyErr ApiResp
  storage : StorageState
  infoFiles : List (Option InfoJson)

/-- The command-line switches the claims depend on. -/
structure Args where
  use_api : Bool
  dump_json : Bool
deriving DecidableEq

/-- Mutable state of the `for url in links` loop. -/
structure RunState where
  all_metadata : List OutRec
  etags_cache : EtagCache
  trace : List Event
deriving DecidableEq

/-- One iteration of the `for url in links` loop of `main`. -/
def processUrl (env : Env) (args : Args) (st : RunState) (url : String) :
    Except PyErr RunState :=
  if Main.is_single_video url then
    match fetch_single_video_pytube env.pytubeAvailable (env.pytube url) with
    | .error e => .error e
    | .ok (some d) =>
      .ok { st with all_metadata := st.all_metadata ++ [pytubeRec d url] }
    | .ok none =>
      .ok { st with trace := st.trace ++ [Event.scrapeInvoked url] }
  else if args.use_api && truthyOpt env.api_key then
    match extractChannelId url with
    | some channel_id =>
      match fetch_channel_videos_youtube_api env.buildAvailable
          (env.apiExec channel_id) channel_id st.etags_cache with
      | .error e => .error e
      | .ok (resp, cache2) =>
        if resp.unchanged then .ok { st with etags_cache := cache2 }
        else
          .ok { st with
                etags_cache := cache2
                all_metadata :=
                  st.all_metadata ++ resp.videos.map (apiRec channel_id) }
    | none => .ok { st with trace := st.trace ++ [Event.scrapeInvoked url] }
  else .ok { st with trace := st.trace ++ [Event.scrapeInvoked url] }

/-- The whole `for url in links` loop; an uncaught exception aborts it. -/
def processLinks (env : Env) (args : Args) :
    RunState → List String → Except PyErr RunState
  | st, [] => .ok st
  | st, url :: rest =>
    match processUrl env args st url with
    | .error e => .error e
    | .ok st1 => processLinks env args st1 rest

/-- What a completed `main` run leaves behind.  `combined` is the
consolidated `--dump-json` output (`none` when the flag is unset). -/
structure MainResult where
  all_metadata : List OutRec
  etags_cache : EtagCache
  trace : List Event
  combined : Option (List OutRec)
deriving DecidableEq

/-- `main.py`, `main`: load the cache, process every link, save the cache
once, then (only under `--dump-json`) sweep the output directory,
skipping unreadable files, and append the swept records after the
in-memory ones. -/
def mainRun (env : Env) (args : Args) (links : List String) :
    Except PyErr MainResult :=
  let cache0 := load_etags_cache env.storage
  match processLinks env args
      { all_metadata := [], etags_cache := cache0, trace := [] } links with
  | .error e => .error e
  | .ok st =>
    let traceSaved := st.trace ++ [Event.saveCache]
    let combined :=
      if args.dump_json then
        some (st.all_metadata ++
          env.infoFiles.filterMap (fun f => f.map sweepRec))
      else none
    .ok { all_metadata := st.all_metadata, etags_cache := st.etags_cache,
          trace := traceSaved, combined := combined }

/-- The consolidated output of a run, when the run completed and asked
for one. -/
def combinedOf : Except PyErr MainResult → List OutRec
  | .ok r => r.combined.getD []
  | .error _ => []

/-- One input dict of `parse_and_save_info_to_csv`; the numeric fields
are carried as their already-`str`-ed values. -/
structure CsvItem where
  videoId : Option String
  title : Option String
  channelId : Option String
  channelTitle : Option String
  duration : Option String
  viewCount : Option String
  likeCount : Option String
  publishedAt : Option String
  description : Option String
  source : Option String
deriving DecidableEq

/-- One written CSV row. -/
structure CsvRow where
  videoId : String
  title : String
  channelId : String
  channelTitle : String
  duration : String
  viewCount : String
  likeCount : String
  publishedAt : String
  description : String
  source : String
deriving DecidableEq

/-- The row dict built for one item inside `parse_and_save_info_to_csv`
(`helpers/parse_metadata.py`). -/
def csvRowOfItem (item : CsvItem) : CsvRow :=
  { videoId := item.videoId.getD "", title := item.title.getD "",
    channelId := item.channelId.getD "",
    channelTitle := item.channelTitle.getD "",
    duration := item.duration.getD "", viewCount := item.viewCount.getD "",
    likeCount := item.likeCount.getD "",
    publishedAt := item.publishedAt.getD "",
    description := pyTruncate (item.description.getD "") 200,
    source := item.source.getD "" }

/-- `helpers/parse_metadata.py`, `parse_and_save_info_to_csv`, modeled as
the sequence of rows it writes after the header. -/
def parse_and_save_info_to_csv (info_list : List CsvItem) : List CsvRow :=
  info_list.map csvRowOfItem

/-- A response item of video kind, videoId `v1`, empty snippet. -/
def itemV1 : ApiItem :=
  { id := { kind := "youtube#video", videoId := some "v1" },
    snippet := { publishedAt := none, channelId := none, title := none,
                 description := none } }

/-- A response item of channel kind: its id object has no `videoId`. -/
def itemCh : ApiItem :=
  { id := { kind := "youtube#channel", videoId := none },
    snippet := { publishedAt := none, channelId := none,
                 title := some "Ch", description := none } }

/-- A server response whose etag is the empty string and that lists one
video. -/
def respEmptyTag : ApiResp := { etag := some "", items := [itemV1] }

/-- A pytube behaviour that always raises. -/
def pytubeRaising : String → Except PyErr PytubeProps :=
  fun _ => .error .pytubeRaise

/-- An API behaviour that always raises (HTTP error from `execute()`). -/
def apiRaising : String → Except PyErr ApiResp :=
  fun _ => .error .httpError

/-- Run environment: API key set, but `googleapiclient` not importable
(`build is None`). -/
def envNoClient : Env :=
  { api_key := some "k", buildAvailable := false, pytubeAvailable := false,
    pytube := pytubeRaising, apiExec := apiRaising,
    storage := .valid [], infoFiles := [] }

/-- Run environment: client available but every API call raises. -/
def envApiRaises : Env :=
  { envNoClient with buildAvailable := true }

/-- Run environment: pytube importable but raising on every URL. -/
def envPytubeRaises : Env :=
  { api_key := none, buildAvailable := false, pytubeAvailable := true,
    pytube := pytubeRaising, apiExec := apiRaising,
    storage := .missing, infoFiles := [] }

/-- A swept `.info.json` whose `id` key is absent. -/
def infoNoId : InfoJson :=
  { id := none, title := some "T", channel_id := none, view_count := none,
    like_count := none, duration := none, webpage_url := none,
    description := none }

/-- Run environment: nothing but one id-less result file in the output
directory. -/
def envSweepNoId : Env :=
  { api_key := none, buildAvailable := false, pytubeAvailable := false,
    pytube := pytubeRaising, apiExec := apiRaising,
    storage := .valid [], infoFiles := [some infoNoId] }

/-- A 201-character description. -/
def longDesc : String := ⟨List.replicate 201 'x'⟩

/-- A successful API response whose single video carries the
201-character description. -/
def respLongDesc : ApiResp :=
  { etag := some "e",
    items := [ { id := { kind := "youtube#video", videoId := some "v" },
                 snippet := { publishedAt := none, channelId := none,
                              title := some "T",
                              description := some longDesc } } ] }

/-- Run environment: working API returning `respLongDesc` for every
channel. -/
def envLongDesc : Env :=
  { api_key := some "k", buildAvailable := true, pytubeAvailable := false,
    pytube := pytubeRaising, apiExec := fun _ => .ok respLongDesc,
    storage := .valid [], infoFiles := [] }

/-!  Theorems. -/

/-- Claim C7, counterexample: the URL `x/watch?v=a&list=b` contains a
single-item marker (and a collection marker), yet the classifier of
`youtube_batch_combo.py` returns Collection, so the single-marker
precedence does not hold for both implementations. -/
theorem C7_counterexample :
    hasSingleMarker "x/watch?v=a&list=b" = true ∧
    Combo.is_single_video "x/watch?v=a&list=b" = false := by decide

/-- Claim C7 (amended): a URL with a single-item marker is classified
Single by `main.py`'s classifier, and a URL with only a collection marker
is classified Collection by both; but precedence differs: `main.py` lets
the single marker win, while `youtube_batch_combo.py` classifies any URL
containing one of its collection regex alternatives as Collection even
when a single-item marker is present. -/
theorem C7_amended_precedence (url : String) :
    (hasSingleMarker url = true → Main.is_single_video url = true) ∧
    (hasSingleMarker url = false → hasCollectionMarker url = true →
      Main.is_single_video url = false) ∧
    (hasSingleMarker url = false → Combo.is_single_video url = false) ∧
    ((containsSub url "list=" || containsSub url "/playlist" ||
        containsSub url "/channel/") = true →
      Combo.is_single_video url = false) ∧
    (hasSingleMarker url = true →
      (containsSub url "list=" || containsSub url "/playlist" ||
        containsSub url "/channel/") = false →
      Combo.is_single_video url = true) := by
  cases h1 : containsSub url "watch?v=" <;>
    cases h2 : containsSub url "youtu.be/" <;>
    cases h3 : containsSub url "/channel/" <;>
    cases h4 : containsSub url "list=" <;>
    cases h5 : containsSub url "/playlist" <;>
    cases h6 : containsSub url "/@" <;>
    simp_all [hasSingleMarker, hasCollectionMarker, Main.is_single_video,
      Combo.is_single_video]

/-- Witness for C7 (amended) at the concrete URL `x/watch?v=a&list=b`. -/
theorem C7_amended_witness :
    Main.is_single_video "x/watch?v=a&list=b" = true ∧
    Combo.is_single_video "x/watch?v=a&list=b" = false :=
  ⟨(C7_amended_precedence "x/watch?v=a&list=b").1 (by decide),
   (C7_amended_precedence "x/watch?v=a&list=b").2.2.2.1 (by decide)⟩

/-- Claim C8: whatever the state of the cache file, when opening or
parsing it raises, `load_etags_cache` swallows the error and returns the
empty mapping; its total return type embodies that it never raises. -/
theorem C8_load_never_raises (s : StorageState) (e : PyErr)
    (h : openAndParseCache s = .error e) : load_etags_cache s = [] := by
  unfold load_etags_cache
  rw [h]

/-- Witness for C8 on a corrupt cache file. -/
theorem C8_witness : load_etags_cache StorageState.corruptContent = [] :=
  C8_load_never_raises StorageState.corruptContent PyErr.jsonError rfl

/-- A lookup after `cacheSet` sees the new value at the written key and
the old cache everywhere else. -/
theorem cacheGet_cacheSet (c : EtagCache) (k v k2 : String) :
    cacheGet (cacheSet c k v) k2 =
      if k2 = k then some v else cacheGet c k2 := by
  induction c with
  | nil =>
    by_cases h : k2 = k
    · subst h
      simp [cacheSet, cacheGet]
    · simp [cacheSet, cacheGet, h, Ne.symm h]
  | cons kv rest ih =>
    by_cases hk : kv.fst = k
    · by_cases h2 : k2 = k
      · subst h2
        simp [cacheSet, cacheGet, hk]
      · simp [cacheSet, cacheGet, hk, h2, Ne.symm h2]
    · by_cases h2 : kv.fst = k2
      · have hne : ¬ k2 = k := by
          intro hkk
          exact hk (hkk ▸ h2)
        simp [cacheSet, cacheGet, hk, h2, hne]
      · simp [cacheSet, cacheGet, hk, h2, ih]

/-- When the item loop of `fetch_channel_videos_youtube_api` completes
without a `KeyError`, it keeps exactly the items of video kind, mapped in
order. -/
theorem parseItems_ok_eq_filterMap (items : List ApiItem)
    (vs : List VideoInfo) (h : parseItems items = .ok vs) :
    vs = items.filterMap toVideoInfo := by
  induction items generalizing vs with
  | nil =>
    simp only [parseItems] at h
    cases h
    simp
  | cons it rest ih =>
    simp only [parseItems] at h
    by_cases hk : (it.id.kind == "youtube#video") = true
    · rw [if_pos hk] at h
      cases hv : it.id.videoId with
      | none => rw [hv] at h; cases h
      | some vid =>
        rw [hv] at h
        cases hr : parseItems rest with
        | error e => rw [hr] at h; cases h
        | ok vs2 =>
          rw [hr] at h
          cases h
          simp [List.filterMap_cons, toVideoInfo, hk, hv, ih vs2 hr]
    · rw [if_neg hk] at h
      simp [List.filterMap_cons, toVideoInfo, hk, ih vs h]

/-- Claim C1, counterexample: collection `UC1` has cached tag `""` and
the server returns the identical tag `""`; Python truthiness treats `""`
as falsy, so the not-modified branch is skipped and the fetch returns the
parsed record with `unchanged = False` instead of an empty-sequence
outcome. -/
theorem C1_counterexample :
    cacheGet [("UC1", "")] "UC1" = respEmptyTag.etag ∧
    fetch_channel_videos_youtube_api true (.ok respEmptyTag) "UC1"
        [("UC1", "")] =
      .ok ({ channelId := "UC1", etag_used := some "", etag_new := some "",
             videos := [{ videoId := "v1", publishedAt := none,
                          channelId := none, title := none,
                          description := none }],
             unchanged := false }, [("UC1", "")]) := ⟨rfl, rfl⟩

/-- Claim C1 (amended): when the cached tag for the collection equals the
server's returned tag and that tag is non-empty, the fetch returns the
empty-sequence unchanged outcome and hands back the cache untouched.
(For the empty tag the branch is skipped; see the counterexample.) -/
theorem C1_amended_unchanged_fetch (cid t : String) (cache : EtagCache)
    (resp : ApiResp) (ht : t ≠ "") (hetag : resp.etag = some t)
    (hcache : cacheGet cache cid = some t) :
    fetch_channel_videos_youtube_api true (.ok resp) cid cache =
      .ok ({ channelId := cid, etag_used := some t, etag_new := none,
             videos := [], unchanged := true }, cache) := by
  unfold fetch_channel_videos_youtube_api
  simp [hetag, hcache, truthyOpt, ht]

/-- Witness for C1 (amended): cached and returned tag are both `e1`. -/
theorem C1_amended_witness :
    fetch_channel_videos_youtube_api true
        (.ok { etag := some "e1", items := [] }) "UC1" [("UC1", "e1")] =
      .ok ({ channelId := "UC1", etag_used := some "e1", etag_new := none,
             videos := [], unchanged := true }, [("UC1", "e1")]) :=
  C1_amended_unchanged_fetch "UC1" "e1" [("UC1", "e1")]
    { etag := some "e1", items := [] } (by decide) rfl rfl

/-- Claim C2, counterexample: no tag is cached for `UC1` and the server
returns the (different) tag `""`; the fetch does return the parsed
record, but the returned cache is still empty — the entry is not updated
to the new tag, because `""` is falsy. -/
theorem C2_counterexample :
    cacheGet [] "UC1" = none ∧ respEmptyTag.etag = some "" ∧
    fetch_channel_videos_youtube_api true (.ok respEmptyTag) "UC1" [] =
      .ok ({ channelId := "UC1", etag_used := none, etag_new := some "",
             videos := [{ videoId := "v1", publishedAt := none,
                          channelId := none, title := none,
                          description := none }],
             unchanged := false }, []) := ⟨rfl, rfl, rfl⟩

/-- Claim C2 (amended): when the server returns a tag different from the
cached one (or nothing is cached) and the items parse, the fetch returns
the parsed records in response order (exactly the video-kind items, in
the order the API listed them) and updates the cache entry to the new tag
provided that tag is non-empty; an empty new tag leaves the cache
unchanged. -/
theorem C2_amended_changed_fetch (cid t : String) (cache : EtagCache)
    (resp : ApiResp) (vs : List VideoInfo)
    (hetag : resp.etag = some t)
    (hold : cacheGet cache cid ≠ some t)
    (hparse : parseItems resp.items = .ok vs) :
    fetch_channel_videos_youtube_api true (.ok resp) cid cache =
      .ok ({ channelId := cid, etag_used := cacheGet cache cid,
             etag_new := some t, videos := vs, unchanged := false },
           if t = "" then cache else cacheSet cache cid t) ∧
    vs = resp.items.filterMap toVideoInfo := by
  have hcond : (truthyOpt (some t) && truthyOpt (cacheGet cache cid) &&
      ((some t : Option String) == cacheGet cache cid)) = false := by
    cases ho : cacheGet cache cid with
    | none => simp [truthyOpt]
    | some s =>
      have hst : t ≠ s := by
        intro hts
        exact hold (by rw [ho, hts])
      simp [truthyOpt, hst]
  constructor
  · simp only [fetch_channel_videos_youtube_api, hetag]
    rw [if_neg (by simp [hcond]), hparse]
    by_cases ht : t = ""
    · simp [truthyOpt, ht, hetag]
    · simp [truthyOpt, ht, hetag]
  · exact parseItems_ok_eq_filterMap resp.items vs hparse

/-- Witness for C2 (amended): cached `e1`, server returns `e2` with one
video; the record list comes back and the cache now holds `e2`. -/
theorem C2_amended_witness :
    fetch_channel_videos_youtube_api true
        (.ok { etag := some "e2", items := [itemV1] }) "UC1"
        [("UC1", "e1")] =
      .ok ({ channelId := "UC1", etag_used := some "e1",
             etag_new := some "e2",
             videos := [{ videoId := "v1", publishedAt := none,
                          channelId := none, title := none,
                          description := none }],
             unchanged := false }, [("UC1", "e2")]) := by
  have h := (C2_amended_changed_fetch "UC1" "e2" [("UC1", "e1")]
    { etag := some "e2", items := [itemV1] }
    [{ videoId := "v1", publishedAt := none, channelId := none,
       title := none, description := none }] rfl (by decide) rfl).1
  exact h

/-- Claim C10: a fetch whose successful response carries no version tag
hands the cache back unchanged, and no fetch ever writes an absent or
empty tag: every binding of the returned cache is either an old binding
or a non-empty tag. -/
theorem C10_fetch_never_writes_empty_tag (b : Bool) (resp : ApiResp)
    (cid : String) (cache : EtagCache) (r : FetchResult)
    (cache2 : EtagCache)
    (h : fetch_channel_videos_youtube_api b (.ok resp) cid cache =
      .ok (r, cache2)) :
    (resp.etag = none → cache2 = cache) ∧
    (∀ k t, cacheGet cache2 k = some t →
      cacheGet cache k = some t ∨ t ≠ "") := by
  cases b with
  | false =>
    simp only [fetch_channel_videos_youtube_api] at h
    cases h
    exact ⟨fun _ => rfl, fun k t hk => Or.inl hk⟩
  | true =>
    simp only [fetch_channel_videos_youtube_api] at h
    by_cases hc : (truthyOpt resp.etag && truthyOpt (cacheGet cache cid) &&
        (resp.etag == cacheGet cache cid)) = true
    · rw [if_pos hc] at h
      cases h
      exact ⟨fun _ => rfl, fun k t hk => Or.inl hk⟩
    · rw [if_neg hc] at h
      cases hp : parseItems resp.items with
      | error e => rw [hp] at h; cases h
      | ok vs =>
        rw [hp] at h
        cases h
        constructor
        · intro hnone
          simp [hnone, truthyOpt]
        · intro k t hk
          cases he : resp.etag with
          | none =>
            rw [he] at hk
            simp only [truthyOpt, Bool.false_eq_true, if_false] at hk
            exact Or.inl hk
          | some s =>
            by_cases hs : s = ""
            · rw [he, hs] at hk
              simp only [truthyOpt, beq_self_eq_true, Bool.not_true,
                Bool.false_eq_true, if_false] at hk
              exact Or.inl hk
            · rw [he] at hk
              rw [if_pos (by simp [truthyOpt, hs]), Option.getD_some,
                cacheGet_cacheSet] at hk
              by_cases hkc : k = cid
              · rw [if_pos hkc] at hk
                cases hk
                exact Or.inr hs
              · rw [if_neg hkc] at hk
                exact Or.inl hk

/-- Witness for C10: a successful tagless response over a one-entry
cache. -/
theorem C10_witness :
    cacheGet [("C", "e")] "C" = some "e" ∨ "e" ≠ "" :=
  (C10_fetch_never_writes_empty_tag true { etag := none, items := [] }
      "C" [("C", "e")] _ _ rfl).2 "C" "e" rfl

/-- A completed loop iteration either leaves the trace alone or appends
exactly one scrape invocation for its URL. -/
theorem processUrl_trace_extends (env : Env) (args : Args) (st : RunState)
    (url : String) (st1 : RunState)
    (h : processUrl env args st url = .ok st1) :
    st1.trace = st.trace ∨
      st1.trace = st.trace ++ [Event.scrapeInvoked url] := by
  unfold processUrl at h
  repeat' split at h
  all_goals cases h
  all_goals simp

/-- The URL loop never emits the save event. -/
theorem processLinks_no_save (env : Env) (args : Args) (links : List String)
    (st st2 : RunState) (h : processLinks env args st links = .ok st2)
    (hs : Event.saveCache ∉ st.trace) : Event.saveCache ∉ st2.trace := by
  induction links generalizing st with
  | nil =>
    unfold processLinks at h
    cases h
    exact hs
  | cons url rest ih =>
    unfold processLinks at h
    cases hp : processUrl env args st url with
    | error e => rw [hp] at h; cases h
    | ok st1 =>
      rw [hp] at h
      refine ih st1 h ?_
      rcases processUrl_trace_extends env args st url st1 hp with h1 | h1
      · rw [h1]; exact hs
      · rw [h1]
        intro hmem
        rcases List.mem_append.mp hmem with hm | hm
        · exact hs hm
        · simp at hm

/-- Claim C3, counterexample: for the collection URL with an extractable
id, the Structured-API strategy is unusable (`googleapiclient` missing),
yet `main` completes with no yt-dlp invocation for that URL — there is no
fallback; and when the client is present but the API call raises, the
whole run aborts with the error instead of continuing. -/
theorem C3_counterexample :
    mainRun envNoClient { use_api := true, dump_json := false }
        ["https://www.youtube.com/channel/UCabc"] =
      .ok { all_metadata := [], etags_cache := [],
            trace := [Event.saveCache], combined := none } ∧
    Event.scrapeInvoked "https://www.youtube.com/channel/UCabc" ∉
      [Event.saveCache] ∧
    mainRun envApiRaises { use_api := true, dump_json := false }
        ["https://www.youtube.com/channel/UCabc"] =
      .error PyErr.httpError := by
  refine ⟨rfl, ?_, rfl⟩
  decide

/-- Claim C3 (amended): for a collection URL the orchestrator invokes the
Generic-Scrape strategy exactly when structured-API use is disabled (flag
unset or key untruthy) or no collection id can be extracted; when the
strategy itself is invoked and is unusable (client missing) the URL
yields an empty outcome with no fallback, and a raised API error aborts
the run. -/
theorem C3_amended_fallback_conditions (env : Env) (args : Args)
    (st : RunState) (url : String)
    (hmulti : Main.is_single_video url = false) :
    ((args.use_api && truthyOpt env.api_key) = false ∨
        extractChannelId url = none →
      processUrl env args st url =
        .ok { st with trace := st.trace ++ [Event.scrapeInvoked url] }) ∧
    (∀ cid, (args.use_api && truthyOpt env.api_key) = true →
      extractChannelId url = some cid → env.buildAvailable = false →
      processUrl env args st url = .ok st) ∧
    (∀ cid e, (args.use_api && truthyOpt env.api_key) = true →
      extractChannelId url = some cid → env.buildAvailable = true →
      env.apiExec cid = .error e →
      processUrl env args st url = .error e) := by
  refine ⟨?_, ?_, ?_⟩
  · intro h
    rcases h with ha | hc
    · simp [processUrl, hmulti, ha]
    · by_cases ha : (args.use_api && truthyOpt env.api_key) = true
      · simp [processUrl, hmulti, ha, hc]
      · simp only [Bool.not_eq_true] at ha
        simp [processUrl, hmulti, ha]
  · intro cid hapi hcid hbuild
    simp [processUrl, hmulti, hapi, hcid, hbuild,
      fetch_channel_videos_youtube_api]
  · intro cid e hapi hcid hbuild hexec
    simp [processUrl, hmulti, hapi, hcid, hbuild, hexec,
      fetch_channel_videos_youtube_api]

/-- Witness for C3 (amended): with the API flag unset, a handle URL is
handed to the scrape strategy. -/
theorem C3_amended_witness :
    processUrl envNoClient { use_api := false, dump_json := false }
        { all_metadata := [], etags_cache := [], trace := [] }
        "https://www.youtube.com/@handle" =
      .ok { all_metadata := [], etags_cache := [],
            trace := [Event.scrapeInvoked
              "https://www.youtube.com/@handle"] } :=
  (C3_amended_fallback_conditions envNoClient
    { use_api := false, dump_json := false }
    { all_metadata := [], etags_cache := [], trace := [] }
    "https://www.youtube.com/@handle" rfl).1 (Or.inl rfl)

/-- Claim C4, counterexample: pytube is installed but raises on the
single-video URL; `main` has no handler, so the run aborts with the
error — no Generic-Scrape fallback, no continuation. -/
theorem C4_counterexample :
    Main.is_single_video "https://youtu.be/abc" = true ∧
    mainRun envPytubeRaises { use_api := false, dump_json := false }
        ["https://youtu.be/abc"] = .error PyErr.pytubeRaise :=
  ⟨rfl, rfl⟩

/-- Claim C4 (amended): for a single-item URL the orchestrator falls back
to Generic-Scrape only when the pytube library is unavailable (the
strategy returns an empty result); when the library raises, the error
propagates and aborts the run; on success a record is appended with the
truncated description. -/
theorem C4_amended_single_fallback (env : Env) (args : Args)
    (st : RunState) (url : String)
    (hsingle : Main.is_single_video url = true) :
    (env.pytubeAvailable = false →
      processUrl env args st url =
        .ok { st with trace := st.trace ++ [Event.scrapeInvoked url] }) ∧
    (∀ e, env.pytubeAvailable = true → env.pytube url = .error e →
      processUrl env args st url = .error e) ∧
    (∀ yt d, env.pytubeAvailable = true → env.pytube url = .ok yt →
      yt.description = some d →
      processUrl env args st url =
        .ok { st with all_metadata := st.all_metadata ++
          [pytubeRec { video_id := yt.video_id, title := yt.title,
                       channel_url := yt.channel_url,
                       channel_id := yt.channel_id,
                       publish_date := yt.publish_date, views := yt.views,
                       description := pyTruncate d 200 } url] }) := by
  refine ⟨?_, ?_, ?_⟩
  · intro hav
    simp [processUrl, hsingle, hav, fetch_single_video_pytube]
  · intro e hav hres
    simp [processUrl, hsingle, hav, hres, fetch_single_video_pytube]
  · intro yt d hav hres hdesc
    simp [processUrl, hsingle, hav, hres, hdesc, fetch_single_video_pytube]

/-- Witness for C4 (amended): pytube unavailable, the watch URL goes to
the scrape strategy. -/
theorem C4_amended_witness :
    processUrl envNoClient { use_api := false, dump_json := false }
        { all_metadata := [], etags_cache := [], trace := [] }
        "https://youtu.be/x" =
      .ok { all_metadata := [], etags_cache := [],
            trace := [Event.scrapeInvoked "https://youtu.be/x"] } :=
  (C4_amended_single_fallback envNoClient
    { use_api := false, dump_json := false }
    { all_metadata := [], etags_cache := [], trace := [] }
    "https://youtu.be/x" rfl).1 rfl

/-- Claim C5, counterexample: with one swept result file whose `id` key
is absent, the consolidated output contains exactly one record and its
itemId is absent — the sweep appends records without checking the
itemId invariant. -/
theorem C5_counterexample :
    (combinedOf (mainRun envSweepNoId
        { use_api := false, dump_json := true } [])).map
      (fun r => r.videoId) = [none] := rfl

/-- Claim C5 (amended): the Structured-API parser emits exactly the
response items of video kind, in order — items of any other kind (those
whose id carries no videoId) are dropped; but no strategy checks that an
emitted itemId is non-empty, and the sweep copies the result file's id
field verbatim, absent or not. -/
theorem C5_amended_api_drops_nonvideo (items : List ApiItem)
    (vs : List VideoInfo) (h : parseItems items = .ok vs) :
    vs = items.filterMap toVideoInfo ∧
    ∀ v ∈ vs, ∃ it ∈ items, it.id.kind = "youtube#video" ∧
      it.id.videoId = some v.videoId := by
  have hv := parseItems_ok_eq_filterMap items vs h
  refine ⟨hv, ?_⟩
  intro v hvmem
  rw [hv] at hvmem
  rcases List.mem_filterMap.mp hvmem with ⟨it, hit, hmap⟩
  unfold toVideoInfo at hmap
  by_cases hk : (it.id.kind == "youtube#video") = true
  · rw [if_pos hk] at hmap
    cases hvid : it.id.videoId with
    | none => rw [hvid] at hmap; cases hmap
    | some vid =>
      rw [hvid] at hmap
      refine ⟨it, hit, by simpa using hk, ?_⟩
      rw [hvid]
      cases hmap
      rfl
  · rw [if_neg hk] at hmap
    cases hmap

/-- Witness for C5 (amended): one video item and one channel item; only
the video survives parsing. -/
theorem C5_amended_witness :
    [({ videoId := "v1", publishedAt := none, channelId := none,
        title := none, description := none } : VideoInfo)] =
      [itemV1, itemCh].filterMap toVideoInfo :=
  (C5_amended_api_drops_nonvideo [itemV1, itemCh]
    [{ videoId := "v1", publishedAt := none, channelId := none,
       title := none, description := none }] rfl).1

/-- Claim C6, counterexample: a run whose only record comes from the
Structured-API strategy with a 201-character description: the
consolidated output keeps all 201 characters — the API path never
truncates. -/
theorem C6_counterexample :
    (combinedOf (mainRun envLongDesc { use_api := true, dump_json := true }
        ["https://www.youtube.com/channel/UC1"])).map
      (fun r => (r.description.getD "").length) = [201] := rfl

/-- Claim C6 (amended): descriptions are truncated to the 200-character
maximum (and shorter ones passed through unchanged) by the single-item
strategy, by the scrape-sweep records, and by the CSV helper; but the
Structured-API strategy copies the description into its records verbatim,
untruncated. -/
theorem C6_amended_truncation :
    (∀ (yt : PytubeProps) (d : SingleData) (s : String),
      fetch_single_video_pytube true (.ok yt) = .ok (some d) →
      yt.description = some s →
      d.description = pyTruncate s 200 ∧ d.description.length ≤ 200 ∧
        (s.length ≤ 200 → d.description = s)) ∧
    (∀ m : InfoJson, (sweepRec m).description =
        some (pyTruncate (m.description.getD "") 200) ∧
      (pyTruncate (m.description.getD "") 200).length ≤ 200) ∧
    (∀ item : CsvItem, (csvRowOfItem item).description =
        pyTruncate (item.description.getD "") 200) ∧
    (∀ it v, toVideoInfo it = some v →
      v.description = it.snippet.description) ∧
    (∀ (s : String) (n : Nat), (pyTruncate s n).length = min n s.length ∧
      (s.length ≤ n → pyTruncate s n = s)) := by
  have hlen : ∀ (s : String) (n : Nat),
      (pyTruncate s n).length = min n s.length := by
    intro s n
    show (s.data.take n).length = min n s.data.length
    exact List.length_take n s.data
  have hall : ∀ (s : String) (n : Nat), s.length ≤ n →
      pyTruncate s n = s := by
    intro s n hle
    show (⟨s.data.take n⟩ : String) = s
    have : s.data.take n = s.data := List.take_of_length_le hle
    rw [this]
  refine ⟨?_, ?_, ?_, ?_, fun s n => ⟨hlen s n, hall s n⟩⟩
  · intro yt d s h hdesc
    simp only [fetch_single_video_pytube, hdesc] at h
    cases h
    refine ⟨rfl, ?_, fun hle => hall s 200 hle⟩
    rw [hlen]
    exact min_le_left 200 s.length
  · intro m
    refine ⟨rfl, ?_⟩
    rw [hlen]
    exact min_le_left 200 _
  · intro item
    rfl
  · intro it v h
    unfold toVideoInfo at h
    by_cases hk : (it.id.kind == "youtube#video") = true
    · rw [if_pos hk] at h
      cases hvid : it.id.videoId with
      | none => rw [hvid] at h; cases h
      | some vid =>
        rw [hvid] at h
        cases h
        rfl
    · rw [if_neg hk] at h
      cases h

/-- Witness for C6 (amended): a 5-character pytube description passes
through unchanged; a swept description is truncated. -/
theorem C6_amended_witness :
    pyTruncate "hello" 200 = "hello" ∧
    (sweepRec infoNoId).description = some (pyTruncate "" 200) :=
  ⟨((C6_amended_truncation).2.2.2.2 "hello" 200).2 (by decide),
   ((C6_amended_truncation).2.1 infoNoId).1⟩

/-- Claim C9, counterexample: `save_etags_cache` opens the cache path
itself in truncating write mode and writes into it directly — there is no
temporary file and no rename, so the trace violates the atomic-write
discipline demanded by the claim: a partial write can leave the stored
cache unreadable. -/
theorem C9_counterexample :
    ¬ atomicWriteDiscipline "data/channel_etags.json"
      (save_etags_cache [("UC1", "e1")] "data/channel_etags.json") := by
  intro h
  have hmem : FsOp.openTruncate "data/channel_etags.json" ∈
      save_etags_cache [("UC1", "e1")] "data/channel_etags.json" := by
    simp [save_etags_cache]
  have hfalse := h _ hmem
  simp [touchesTargetDirectly] at hfalse

/-- Claim C9 (amended): `save_etags_cache` creates the parent storage
location first and never renames (it opens the target for truncation and
writes it in place, not atomically); and in every completed run the save
happens exactly once, after all URL processing, as the final traced
event. -/
theorem C9_amended_save_once_direct_write :
    (∀ (m : EtagCache) (p : String),
      (save_etags_cache m p).head? =
        some (FsOp.mkdirParents (parentDir p)) ∧
      FsOp.openTruncate p ∈ save_etags_cache m p ∧
      ∀ s d, FsOp.rename s d ∉ save_etags_cache m p) ∧
    (∀ (env : Env) (args : Args) (links : List String) (res : MainResult),
      mainRun env args links = .ok res →
      ∃ pre, res.trace = pre ++ [Event.saveCache] ∧
        Event.saveCache ∉ pre) := by
  constructor
  · intro m p
    refine ⟨rfl, ?_, ?_⟩
    · simp [save_etags_cache]
    · intro s d
      simp [save_etags_cache]
  · intro env args links res h
    simp only [mainRun] at h
    cases hp : processLinks env args
        { all_metadata := [], etags_cache := load_etags_cache env.storage,
          trace := [] } links with
    | error e => rw [hp] at h; cases h
    | ok st =>
      rw [hp] at h
      cases h
      refine ⟨st.trace, rfl, ?_⟩
      exact processLinks_no_save env args links _ st hp (by simp)

/-- Witness for C9 (amended): a run over the empty URL list traces
exactly one save event, and it is last. -/
theorem C9_amended_witness :
    mainRun envNoClient { use_api := false, dump_json := false } [] =
      .ok { all_metadata := [], etags_cache := [],
            trace := [Event.saveCache], combined := none } ∧
    ∃ pre, ([Event.saveCache] : List Event) = pre ++ [Event.saveCache] ∧
      Event.saveCache ∉ pre := by
  refine ⟨rfl, ?_⟩
  exact (C9_amended_save_once_direct_write).2 envNoClient
    { use_api := false, dump_json := false } []
    { all_metadata := [], etags_cache := [],
      trace := [Event.saveCache], combined := none } rfl
